import Mathlib

/-!
# BOM removal script (`remove_bom.js`)

A shallow embedding of `removeBomFromFile` and of the two top-level
invocations that follow it.  The script talks to the outside world through
`path.resolve`, `fs.readFileSync`, `fs.writeFileSync`, `console.log` and
`console.error`.

* `path.resolve` is a parameter: a function from the path as given to the
  absolute path, or to the error it throws (for a relative path it asks for
  the working directory of the process, which fails when that directory is
  gone).  Its call sits before the `try`, so its throw is not handled.
* The file system is a `World`: a map from absolute paths to file
  identities (two paths with one identity are names of one file: a symbolic
  or a hard link), one `File` per identity, and an ordered trace of effects.

JavaScript exceptions are explicit: a computation returns either a value or
the thrown error, together with the world it leaves behind, and
`try`/`catch` is the handler of that monad.
-/

namespace RemoveBom

/-- One byte of a Node `Buffer`. -/
abbrev Byte := Fin 256

/-- The contents of a Node `Buffer`: an ordered sequence of bytes. -/
abbrev Buffer := List Byte

/-- The identity of a file, written as one canonical absolute path of it. -/
abbrev FileId := String

/-- How `fs.writeFileSync` behaves on a given file: it goes through, it
throws while opening the file (nothing is touched), or it throws after the
file was truncated and `written` bytes were stored. -/
inductive WriteFault where
  | none
  | onOpen (err : String)
  | onWrite (err : String) (written : Nat)
  deriving DecidableEq, Repr

/-- What the world holds for one file: the answer of `fs.readFileSync` (the
bytes, or the rendered error it throws) and the behaviour of
`fs.writeFileSync` on it. -/
structure File where
  content : Except String Buffer
  fault : WriteFault

/-- An observable effect of the script. -/
inductive Event where
  | read (path : String)
  | write (path : String) (data : Buffer)
  | stdout (line : String)
  | stderr (line : String)
  deriving DecidableEq, Repr

/-- The world the script runs in: `node` sends an absolute path to the file
it leads to once links are followed, `files` holds one `File` per identity,
and `trace` lists the effects performed so far, oldest first. -/
structure World where
  node : String → FileId
  files : FileId → File
  trace : List Event

/-- The file an absolute path leads to. -/
def World.fs (w : World) (path : String) : File := w.files (w.node path)

/-- A JavaScript computation: it runs in a world and either returns a value
or throws, leaving a world behind. -/
def JsM (α : Type) : Type := World → Except String α × World

instance : Monad JsM where
  pure a := fun w => (Except.ok a, w)
  bind m f := fun w =>
    match m w with
    | (Except.ok a, w1) => f a w1
    | (Except.error e, w1) => (Except.error e, w1)

instance : MonadExcept String JsM where
  throw e := fun w => (Except.error e, w)
  tryCatch m handler := fun w =>
    match m w with
    | (Except.ok a, w1) => (Except.ok a, w1)
    | (Except.error e, w1) => handler e w1

/-- Node's `path.resolve(filePath)`: the absolute path, or a throw; it leaves
the world as it is. -/
def pathResolve (resolve : String → Except String String) (filePath : String) : JsM String :=
  fun w => (resolve filePath, w)

/-- Node's `fs.readFileSync(path)`: the whole content of the file, or a throw. -/
def readFileSync (path : String) : JsM Buffer := fun w =>
  ((w.fs path).content, { w with trace := w.trace ++ [Event.read path] })

/-- The files after `data` was stored in the file `i`. -/
def store (files : FileId → File) (i : FileId) (data : Buffer) : FileId → File :=
  fun j => if j = i then { content := Except.ok data, fault := (files i).fault } else files j

/-- Node's `fs.writeFileSync(path, data)`: truncate and replace the file the
path leads to, or a throw. -/
def writeFileSync (path : String) (data : Buffer) : JsM Unit := fun w =>
  let t := w.trace ++ [Event.write path data]
  match (w.fs path).fault with
  | WriteFault.none =>
      (Except.ok (), { node := w.node, files := store w.files (w.node path) data, trace := t })
  | WriteFault.onOpen err => (Except.error err, { node := w.node, files := w.files, trace := t })
  | WriteFault.onWrite err n =>
      (Except.error err,
        { node := w.node, files := store w.files (w.node path) (data.take n), trace := t })

/-- Node's `console.log(line)`: one line on standard output. -/
def consoleLog (line : String) : JsM Unit := fun w =>
  (Except.ok (), { w with trace := w.trace ++ [Event.stdout line] })

/-- Node's `console.error(line)`: one line on standard error. -/
def consoleError (line : String) : JsM Unit := fun w =>
  (Except.ok (), { w with trace := w.trace ++ [Event.stderr line] })

/-- The function `removeBomFromFile(filePath)`, statement by statement;
`resolve` is what `path.resolve` does in this process. -/
def removeBomFromFile (resolve : String → Except String String) (filePath : String) :
    JsM Unit := do
  let fullPath ← pathResolve resolve filePath
  try
    let data ← readFileSync fullPath
    if data.length ≥ 3 ∧ data[0]? = some 0xef ∧ data[1]? = some 0xbb ∧ data[2]? = some 0xbf then
      consoleLog ("BOM found and removed from " ++ filePath)
      writeFileSync fullPath (data.drop 3)
    else
      consoleLog ("No BOM found in " ++ filePath)
  catch err =>
    consoleError ("Error processing file " ++ filePath ++ ": " ++ err)

/-- The top-level statements of the script: the two hard-coded calls. -/
def script (resolve : String → Except String String) : JsM Unit := do
  removeBomFromFile resolve "main.py"
  removeBomFromFile resolve "pdf_processor/processor.py"

/-- The UTF-8 byte-order mark `EF BB BF`. -/
def bom : Buffer := [0xef, 0xbb, 0xbf]

/-- The effects a run added to the trace: those of `w2` after the ones
already in `w1`. -/
def emitted (w1 w2 : World) : List Event := w2.trace.drop w1.trace.length

/-- The lines written to standard output among `evs`. -/
def stdoutLines : List Event → List String
  | [] => []
  | Event.stdout l :: evs => l :: stdoutLines evs
  | _ :: evs => stdoutLines evs

/-- The lines written to standard error among `evs`. -/
def stderrLines : List Event → List String
  | [] => []
  | Event.stderr l :: evs => l :: stderrLines evs
  | _ :: evs => stderrLines evs

/-- The writes among `evs`: target and data, in order. -/
def writes : List Event → List (String × Buffer)
  | [] => []
  | Event.write p d :: evs => (p, d) :: writes evs
  | _ :: evs => writes evs

/-- The paths read among `evs`, in order. -/
def reads : List Event → List String
  | [] => []
  | Event.read p :: evs => p :: reads evs
  | _ :: evs => reads evs

/-- A file that does not exist: reading it throws. -/
def missingFile : File := { content := Except.error "ENOENT", fault := WriteFault.none }

/-- A world without links and with a single interesting file; every other
path is missing. -/
def worldWith (path : String) (f : File) : World :=
  { node := fun q => q,
    files := fun i => if i = path then f else missingFile,
    trace := [] }

/-- A world without links and with two interesting files; every other path
is missing. -/
def worldWith2 (path1 : String) (f1 : File) (path2 : String) (f2 : File) : World :=
  { node := fun q => q,
    files := fun i => if i = path1 then f1 else if i = path2 then f2 else missingFile,
    trace := [] }

/-- A world with a single interesting file that has two names: `link` is a
link to the file at `path`; every other path is missing. -/
def linkedWorld (path link : String) (f : File) : World :=
  { node := fun q => if q = link then path else q,
    files := fun i => if i = path then f else missingFile,
    trace := [] }

/-- A stand-in for `path.resolve` with working directory `/w`. -/
def resolveIn (filePath : String) : Except String String := Except.ok ("/w/" ++ filePath)

/-- A stand-in for `path.resolve` on relative paths in a process whose
working directory has been removed: asking for it throws. -/
def resolveGone (_filePath : String) : Except String String :=
  Except.error "Error: ENOENT: no such file or directory, uv_cwd"

/-- The bytes of `hello`. -/
def hello : Buffer := [0x68, 0x65, 0x6c, 0x6c, 0x6f]

/-- A readable and writable file holding `data`. -/
def plainFile (data : Buffer) : File := { content := Except.ok data, fault := WriteFault.none }

/-- A readable file holding `data` that cannot be opened for writing. -/
def readOnlyFile (data : Buffer) : File :=
  { content := Except.ok data, fault := WriteFault.onOpen "Error: EACCES: permission denied" }

/-- A readable file holding `data` on a device that runs out of space after
`n` bytes of a write. -/
def fullDiskFile (data : Buffer) (n : Nat) : File :=
  { content := Except.ok data,
    fault := WriteFault.onWrite "Error: ENOSPC: no space left on device" n }

/-- The test of the `if`, as a statement about the first three bytes. -/
theorem bomTest_iff (data : Buffer) :
    (data.length ≥ 3 ∧ data[0]? = some 0xef ∧ data[1]? = some 0xbb ∧ data[2]? = some 0xbf)
      ↔ data.take 3 = bom := by
  match data with
  | [] => simp [bom]
  | [a] => simp [bom]
  | [a, b] => simp [bom]
  | a :: b :: c :: rest => simp [bom]

/-- When `path.resolve` throws, the call throws the same error and does
nothing else. -/
theorem run_resolveError (resolve : String → Except String String) (p : String) (w : World)
    (e : String) (hres : resolve p = Except.error e) :
    removeBomFromFile resolve p w = (Except.error e, w) := by
  simp [removeBomFromFile, bind, pathResolve, hres]

/-- A read that throws: the handler reports it on standard error. -/
theorem run_readError (resolve : String → Except String String) (p fp : String) (w : World)
    (e : String) (hres : resolve p = Except.ok fp)
    (h : (w.fs fp).content = Except.error e) :
    removeBomFromFile resolve p w =
      (Except.ok (), { node := w.node, files := w.files, trace := w.trace ++
        [Event.read fp, Event.stderr ("Error processing file " ++ p ++ ": " ++ e)] }) := by
  simp [removeBomFromFile, bind, tryCatch, pathResolve, readFileSync, consoleError, hres, h]

/-- No mark at offset 0: one line on standard output, nothing written. -/
theorem run_noBom (resolve : String → Except String String) (p fp : String) (w : World)
    (B : Buffer) (hres : resolve p = Except.ok fp)
    (h : (w.fs fp).content = Except.ok B) (hb : B.take 3 ≠ bom) :
    removeBomFromFile resolve p w =
      (Except.ok (), { node := w.node, files := w.files, trace := w.trace ++
        [Event.read fp, Event.stdout ("No BOM found in " ++ p)] }) := by
  have hc := (bomTest_iff B).not.mpr hb
  simp [removeBomFromFile, bind, tryCatch, pathResolve, readFileSync, consoleLog, hres, h, hc]

/-- A mark at offset 0 and a write that goes through. -/
theorem run_bom_written (resolve : String → Except String String) (p fp : String) (w : World)
    (B : Buffer) (hres : resolve p = Except.ok fp)
    (h : (w.fs fp).content = Except.ok B) (hb : B.take 3 = bom)
    (hf : (w.fs fp).fault = WriteFault.none) :
    removeBomFromFile resolve p w =
      (Except.ok (),
        { node := w.node,
          files := store w.files (w.node fp) (B.drop 3),
          trace := w.trace ++
            [Event.read fp, Event.stdout ("BOM found and removed from " ++ p),
             Event.write fp (B.drop 3)] }) := by
  have hc := (bomTest_iff B).mpr hb
  have hf2 : (World.fs { node := w.node, files := w.files, trace := w.trace ++
      [Event.read fp, Event.stdout ("BOM found and removed from " ++ p)] } fp).fault
      = WriteFault.none := hf
  simp [removeBomFromFile, bind, tryCatch, pathResolve, readFileSync, consoleLog,
    writeFileSync, hres, h, hc, hf2]

/-- A mark at offset 0 and a write that throws while opening the file. -/
theorem run_bom_onOpen (resolve : String → Except String String) (p fp : String) (w : World)
    (B : Buffer) (e : String) (hres : resolve p = Except.ok fp)
    (h : (w.fs fp).content = Except.ok B) (hb : B.take 3 = bom)
    (hf : (w.fs fp).fault = WriteFault.onOpen e) :
    removeBomFromFile resolve p w =
      (Except.ok (), { node := w.node, files := w.files, trace := w.trace ++
        [Event.read fp, Event.stdout ("BOM found and removed from " ++ p),
         Event.write fp (B.drop 3),
         Event.stderr ("Error processing file " ++ p ++ ": " ++ e)] }) := by
  have hc := (bomTest_iff B).mpr hb
  have hf2 : (World.fs { node := w.node, files := w.files, trace := w.trace ++
      [Event.read fp, Event.stdout ("BOM found and removed from " ++ p)] } fp).fault
      = WriteFault.onOpen e := hf
  simp [removeBomFromFile, bind, tryCatch, pathResolve, readFileSync, consoleLog, consoleError,
    writeFileSync, hres, h, hc, hf2]

/-- A mark at offset 0 and a write that throws after storing `n` bytes. -/
theorem run_bom_onWrite (resolve : String → Except String String) (p fp : String) (w : World)
    (B : Buffer) (e : String) (n : Nat) (hres : resolve p = Except.ok fp)
    (h : (w.fs fp).content = Except.ok B) (hb : B.take 3 = bom)
    (hf : (w.fs fp).fault = WriteFault.onWrite e n) :
    removeBomFromFile resolve p w =
      (Except.ok (),
        { node := w.node,
          files := store w.files (w.node fp) ((B.drop 3).take n),
          trace := w.trace ++
            [Event.read fp, Event.stdout ("BOM found and removed from " ++ p),
             Event.write fp (B.drop 3),
             Event.stderr ("Error processing file " ++ p ++ ": " ++ e)] }) := by
  have hc := (bomTest_iff B).mpr hb
  have hf2 : (World.fs { node := w.node, files := w.files, trace := w.trace ++
      [Event.read fp, Event.stdout ("BOM found and removed from " ++ p)] } fp).fault
      = WriteFault.onWrite e n := hf
  simp [removeBomFromFile, bind, tryCatch, pathResolve, readFileSync, consoleLog, consoleError,
    writeFileSync, hres, h, hc, hf2]

/-- The effects added by a run are what was appended to the trace. -/
theorem emitted_eq (w : World) (node : String → FileId) (files : FileId → File)
    (evs : List Event) :
    emitted w { node := node, files := files, trace := w.trace ++ evs } = evs := by
  simp [emitted]

/-- Reading back, through any of its names, what `store` put in a file. -/
theorem fs_store_same (node : String → FileId) (files : FileId → File) (t : List Event)
    (path : String) (data : Buffer) :
    World.fs { node := node, files := store files (node path) data, trace := t } path
      = { content := Except.ok data, fault := (files (node path)).fault } := by
  simp [World.fs, store]

/-- C1: when the file at `p` holds a buffer `B` of at least three bytes that
starts with `EF BB BF`, and both the read and the write succeed, the call
returns normally, the file at `p` afterwards holds exactly `B` without its
first three bytes, the single write carries that buffer, and the only message
is `BOM found and removed from p` on standard output. -/
theorem C1_bom_removed (resolve : String → Except String String) (p fp : String) (w : World)
    (B : Buffer) (hres : resolve p = Except.ok fp)
    (_hlen : 3 ≤ B.length) (hb : B.take 3 = bom)
    (hread : (w.fs fp).content = Except.ok B)
    (hwrite : (w.fs fp).fault = WriteFault.none) :
    (removeBomFromFile resolve p w).1 = Except.ok ()
    ∧ ((removeBomFromFile resolve p w).2.fs fp).content = Except.ok (B.drop 3)
    ∧ bom ++ B.drop 3 = B
    ∧ emitted w (removeBomFromFile resolve p w).2 =
        [Event.read fp, Event.stdout ("BOM found and removed from " ++ p),
         Event.write fp (B.drop 3)] := by
  rw [run_bom_written resolve p fp w B hres hread hb hwrite]
  refine ⟨rfl, ?_, ?_, emitted_eq _ _ _ _⟩
  · simp [fs_store_same]
  · rw [← hb]; exact List.take_append_drop 3 B

/-- C1 on the scenario of the specification: `EF BB BF 68 65 6C 6C 6F`
becomes `68 65 6C 6C 6F`. -/
theorem C1_bom_removed_witness :
    ((removeBomFromFile resolveIn "main.py"
        (worldWith "/w/main.py" (plainFile (bom ++ hello)))).2.fs "/w/main.py").content
      = Except.ok hello
    ∧ emitted (worldWith "/w/main.py" (plainFile (bom ++ hello)))
        (removeBomFromFile resolveIn "main.py"
          (worldWith "/w/main.py" (plainFile (bom ++ hello)))).2 =
        [Event.read "/w/main.py", Event.stdout "BOM found and removed from main.py",
         Event.write "/w/main.py" hello] := by
  have h := C1_bom_removed resolveIn "main.py" "/w/main.py"
    (worldWith "/w/main.py" (plainFile (bom ++ hello)))
    (bom ++ hello) rfl (by decide) (by decide) (by simp [worldWith, World.fs, plainFile])
    (by simp [worldWith, World.fs, plainFile])
  exact ⟨h.2.1, h.2.2.2⟩

/-- C2: when the file at `p` holds a buffer `B` that is shorter than three
bytes, or has at least three bytes of which the first three are not
`EF BB BF`, and the read succeeds, the call returns normally, issues no write,
leaves every file (so the file at `p`) as it was, and its only message is
`No BOM found in p` on standard output. -/
theorem C2_no_bom_untouched (resolve : String → Except String String) (p fp : String)
    (w : World) (B : Buffer) (hres : resolve p = Except.ok fp)
    (hb : B.length < 3 ∨ (3 ≤ B.length ∧ B.take 3 ≠ bom))
    (hread : (w.fs fp).content = Except.ok B) :
    (removeBomFromFile resolve p w).1 = Except.ok ()
    ∧ writes (emitted w (removeBomFromFile resolve p w).2) = []
    ∧ (removeBomFromFile resolve p w).2.files = w.files
    ∧ (removeBomFromFile resolve p w).2.fs = w.fs
    ∧ ((removeBomFromFile resolve p w).2.fs fp).content = Except.ok B
    ∧ emitted w (removeBomFromFile resolve p w).2 =
        [Event.read fp, Event.stdout ("No BOM found in " ++ p)] := by
  have hne : B.take 3 ≠ bom := by
    rcases hb with h | h
    · intro hk
      have : (B.take 3).length = 3 := by rw [hk]; rfl
      simp at this
      omega
    · exact h.2
  rw [run_noBom resolve p fp w B hres hread hne]
  refine ⟨rfl, ?_, rfl, rfl, hread, emitted_eq _ _ _ _⟩
  rw [emitted_eq]
  rfl

/-- C2 on the scenario of the specification (`68 65 6C 6C 6F` is left
alone) and on the proper beginning `EF BB` of the mark. -/
theorem C2_no_bom_untouched_witness :
    ((removeBomFromFile resolveIn "main.py"
        (worldWith "/w/main.py" (plainFile hello))).2.fs "/w/main.py").content = Except.ok hello
    ∧ emitted (worldWith "/w/main.py" (plainFile hello))
        (removeBomFromFile resolveIn "main.py" (worldWith "/w/main.py" (plainFile hello))).2 =
        [Event.read "/w/main.py", Event.stdout "No BOM found in main.py"]
    ∧ emitted (worldWith "/w/main.py" (plainFile [0xef, 0xbb]))
        (removeBomFromFile resolveIn "main.py"
          (worldWith "/w/main.py" (plainFile [0xef, 0xbb]))).2 =
        [Event.read "/w/main.py", Event.stdout "No BOM found in main.py"] := by
  have h := C2_no_bom_untouched resolveIn "main.py" "/w/main.py"
    (worldWith "/w/main.py" (plainFile hello))
    hello rfl (Or.inr (by decide)) (by simp [worldWith, World.fs, plainFile])
  have h2 := C2_no_bom_untouched resolveIn "main.py" "/w/main.py"
    (worldWith "/w/main.py" (plainFile [0xef, 0xbb])) [0xef, 0xbb] rfl (Or.inl (by decide))
    (by simp [worldWith, World.fs, plainFile])
  exact ⟨h.2.2.2.2.1, h.2.2.2.2.2, h2.2.2.2.2.2⟩

/-- C4: when `B` does not start with `EF BB BF` and the file at `p` holds
`EF BB BF` followed by `B`, with the read and the write succeeding, the file
at `p` holds exactly `B` after the call. -/
theorem C4_round_trip (resolve : String → Except String String) (p fp : String) (w : World)
    (B : Buffer) (hres : resolve p = Except.ok fp)
    (_hB : B.take 3 ≠ bom)
    (hread : (w.fs fp).content = Except.ok (bom ++ B))
    (hwrite : (w.fs fp).fault = WriteFault.none) :
    (removeBomFromFile resolve p w).1 = Except.ok ()
    ∧ ((removeBomFromFile resolve p w).2.fs fp).content = Except.ok B := by
  rw [run_bom_written resolve p fp w (bom ++ B) hres hread (by simp [bom]) hwrite]
  refine ⟨rfl, ?_⟩
  simp [fs_store_same, bom]

/-- C4 on `hello`: the mark put in front of it is taken off again. -/
theorem C4_round_trip_witness :
    ((removeBomFromFile resolveIn "main.py"
        (worldWith "/w/main.py" (plainFile (bom ++ hello)))).2.fs "/w/main.py").content
      = Except.ok hello :=
  (C4_round_trip resolveIn "main.py" "/w/main.py"
    (worldWith "/w/main.py" (plainFile (bom ++ hello)))
    hello rfl (by decide) (by simp [worldWith, World.fs, plainFile])
    (by simp [worldWith, World.fs, plainFile])).2

/-- C5: when reading the file at `p` throws an error `e`, the call returns
normally, issues no write, leaves every file as it was, writes nothing to
standard output, and writes exactly one line to standard error, which is
`Error processing file p: e` (it holds the path as given and the text of the
error). -/
theorem C5_read_failure (resolve : String → Except String String) (p fp : String) (w : World)
    (e : String) (hres : resolve p = Except.ok fp)
    (hread : (w.fs fp).content = Except.error e) :
    (removeBomFromFile resolve p w).1 = Except.ok ()
    ∧ (removeBomFromFile resolve p w).2.files = w.files
    ∧ (removeBomFromFile resolve p w).2.fs = w.fs
    ∧ writes (emitted w (removeBomFromFile resolve p w).2) = []
    ∧ stdoutLines (emitted w (removeBomFromFile resolve p w).2) = []
    ∧ stderrLines (emitted w (removeBomFromFile resolve p w).2) =
        ["Error processing file " ++ p ++ ": " ++ e]
    ∧ emitted w (removeBomFromFile resolve p w).2 =
        [Event.read fp, Event.stderr ("Error processing file " ++ p ++ ": " ++ e)] := by
  rw [run_readError resolve p fp w e hres hread, emitted_eq]
  exact ⟨rfl, rfl, rfl, rfl, rfl, rfl, rfl⟩

/-- C5 on a missing file. -/
theorem C5_read_failure_witness :
    emitted (worldWith "/w/other.py" (plainFile hello))
        (removeBomFromFile resolveIn "main.py" (worldWith "/w/other.py" (plainFile hello))).2 =
      [Event.read "/w/main.py", Event.stderr "Error processing file main.py: ENOENT"] :=
  (C5_read_failure resolveIn "main.py" "/w/main.py"
    (worldWith "/w/other.py" (plainFile hello)) "ENOENT" rfl
    (by simp [worldWith, World.fs, missingFile])).2.2.2.2.2.2

/-- C3, as stated, fails on a file that starts with the mark twice: with
`EF BB BF EF BB BF` in a readable and writable file, one call leaves
`EF BB BF`, a second call finds a mark again, writes again and leaves the
empty buffer. -/
theorem C3_counterexample :
    ((removeBomFromFile resolveIn "main.py"
        (worldWith "/w/main.py" (plainFile (bom ++ bom)))).2.fs "/w/main.py").content
      = Except.ok bom
    ∧ ((removeBomFromFile resolveIn "main.py"
        (removeBomFromFile resolveIn "main.py"
          (worldWith "/w/main.py" (plainFile (bom ++ bom)))).2).2.fs "/w/main.py").content
      = Except.ok []
    ∧ (Except.ok [] : Except String Buffer) ≠ Except.ok bom
    ∧ emitted (removeBomFromFile resolveIn "main.py"
          (worldWith "/w/main.py" (plainFile (bom ++ bom)))).2
        (removeBomFromFile resolveIn "main.py"
          (removeBomFromFile resolveIn "main.py"
            (worldWith "/w/main.py" (plainFile (bom ++ bom)))).2).2 =
        [Event.read "/w/main.py", Event.stdout "BOM found and removed from main.py",
         Event.write "/w/main.py" []] := by
  have h1 := run_bom_written resolveIn "main.py" "/w/main.py"
    (worldWith "/w/main.py" (plainFile (bom ++ bom))) (bom ++ bom) rfl
    (by simp [worldWith, World.fs, plainFile]) (by decide)
    (by simp [worldWith, World.fs, plainFile])
  rw [h1]
  have h2 := run_bom_written resolveIn "main.py" "/w/main.py"
    { node := (worldWith "/w/main.py" (plainFile (bom ++ bom))).node,
      files := store (worldWith "/w/main.py" (plainFile (bom ++ bom))).files
        ((worldWith "/w/main.py" (plainFile (bom ++ bom))).node "/w/main.py")
        ((bom ++ bom).drop 3),
      trace := (worldWith "/w/main.py" (plainFile (bom ++ bom))).trace ++
        [Event.read "/w/main.py",
         Event.stdout ("BOM found and removed from " ++ "main.py"),
         Event.write "/w/main.py" ((bom ++ bom).drop 3)] }
    bom rfl (by simp [fs_store_same, bom]) (by decide)
    (by simp [fs_store_same, worldWith, plainFile])
  rw [h2]
  refine ⟨?_, ?_, ?_, ?_⟩
  · simp [fs_store_same, bom]
  · simp [fs_store_same, bom]
  · simp [bom]
  · exact emitted_eq _ _ _ _

/-- C3, amended: when the file at `p` holds a buffer `B` that does not start
with the mark twice (`EF BB BF EF BB BF`), and reads and writes succeed, two
calls in succession leave the same files as one call, and the second call
returns normally, writes nothing and reports `No BOM found in p`. -/
theorem C3_idempotent_single_mark (resolve : String → Except String String) (p fp : String)
    (w : World) (B : Buffer) (hres : resolve p = Except.ok fp)
    (hB : B.take 6 ≠ bom ++ bom)
    (hread : (w.fs fp).content = Except.ok B)
    (hwrite : (w.fs fp).fault = WriteFault.none) :
    (removeBomFromFile resolve p (removeBomFromFile resolve p w).2).1 = Except.ok ()
    ∧ (removeBomFromFile resolve p (removeBomFromFile resolve p w).2).2.files
        = (removeBomFromFile resolve p w).2.files
    ∧ (removeBomFromFile resolve p (removeBomFromFile resolve p w).2).2.fs
        = (removeBomFromFile resolve p w).2.fs
    ∧ emitted (removeBomFromFile resolve p w).2
        (removeBomFromFile resolve p (removeBomFromFile resolve p w).2).2 =
        [Event.read fp, Event.stdout ("No BOM found in " ++ p)] := by
  by_cases hb : B.take 3 = bom
  · have hrest : (B.drop 3).take 3 ≠ bom := by
      intro hk
      apply hB
      have h6 : B.take 6 = B.take 3 ++ (B.drop 3).take 3 := by
        rw [show (6 : Nat) = 3 + 3 from rfl, List.take_add]
      rw [h6, hb, hk]
    rw [run_bom_written resolve p fp w B hres hread hb hwrite]
    rw [run_noBom resolve p fp _ (B.drop 3) hres (by simp [fs_store_same]) hrest]
    exact ⟨rfl, rfl, rfl, emitted_eq _ _ _ _⟩
  · rw [run_noBom resolve p fp w B hres hread hb]
    rw [run_noBom resolve p fp
      { node := w.node, files := w.files, trace := w.trace ++
          [Event.read fp, Event.stdout ("No BOM found in " ++ p)] } B hres hread hb]
    exact ⟨rfl, rfl, rfl, emitted_eq _ _ _ _⟩

/-- C3, amended, on `EF BB BF 68 65 6C 6C 6F`: the second call changes
nothing and reports that there is no mark. -/
theorem C3_idempotent_single_mark_witness :
    emitted (removeBomFromFile resolveIn "main.py"
          (worldWith "/w/main.py" (plainFile (bom ++ hello)))).2
        (removeBomFromFile resolveIn "main.py"
          (removeBomFromFile resolveIn "main.py"
            (worldWith "/w/main.py" (plainFile (bom ++ hello)))).2).2 =
      [Event.read "/w/main.py", Event.stdout "No BOM found in main.py"] :=
  (C3_idempotent_single_mark resolveIn "main.py" "/w/main.py"
    (worldWith "/w/main.py" (plainFile (bom ++ hello))) (bom ++ hello) rfl (by decide)
    (by simp [worldWith, World.fs, plainFile])
    (by simp [worldWith, World.fs, plainFile])).2.2.2

/-- C7 at a failing input: `EF BB BF 68 65 6C 6C 6F` in a file that can be
read but not opened for writing.  The call emits two messages, the success
line on standard output and then the failure line on standard error, and the
file is left as it was. -/
theorem C7_two_messages_on_failed_write :
    stdoutLines (emitted (worldWith "/w/main.py" (readOnlyFile (bom ++ hello)))
        (removeBomFromFile resolveIn "main.py"
          (worldWith "/w/main.py" (readOnlyFile (bom ++ hello)))).2)
      = ["BOM found and removed from main.py"]
    ∧ stderrLines (emitted (worldWith "/w/main.py" (readOnlyFile (bom ++ hello)))
        (removeBomFromFile resolveIn "main.py"
          (worldWith "/w/main.py" (readOnlyFile (bom ++ hello)))).2)
      = ["Error processing file main.py: Error: EACCES: permission denied"]
    ∧ ((removeBomFromFile resolveIn "main.py"
          (worldWith "/w/main.py" (readOnlyFile (bom ++ hello)))).2.fs "/w/main.py").content
      = Except.ok (bom ++ hello) := by
  have h := run_bom_onOpen resolveIn "main.py" "/w/main.py"
    (worldWith "/w/main.py" (readOnlyFile (bom ++ hello))) (bom ++ hello)
    "Error: EACCES: permission denied" rfl
    (by simp [worldWith, World.fs, readOnlyFile]) (by decide)
    (by simp [worldWith, World.fs, readOnlyFile])
  rw [h, emitted_eq]
  refine ⟨rfl, rfl, ?_⟩
  simp [worldWith, World.fs, readOnlyFile]

/-- C8 where it fails: when the file at `p` starts with `EF BB BF`, the read
succeeds and the write throws `e` while opening the file, the failure line
for `p` and `e` is on standard error, but the line
`BOM found and removed from p` is on standard output all the same, although
the file still holds the whole of `B`, mark included. -/
theorem C8_success_reported_before_write (resolve : String → Except String String)
    (p fp : String) (w : World) (B : Buffer) (e : String)
    (hres : resolve p = Except.ok fp) (hb : B.take 3 = bom)
    (hread : (w.fs fp).content = Except.ok B)
    (hwrite : (w.fs fp).fault = WriteFault.onOpen e) :
    stderrLines (emitted w (removeBomFromFile resolve p w).2)
      = ["Error processing file " ++ p ++ ": " ++ e]
    ∧ stdoutLines (emitted w (removeBomFromFile resolve p w).2)
      = ["BOM found and removed from " ++ p]
    ∧ ((removeBomFromFile resolve p w).2.fs fp).content = Except.ok B
    ∧ B ≠ B.drop 3 := by
  rw [run_bom_onOpen resolve p fp w B e hres hread hb hwrite, emitted_eq]
  refine ⟨rfl, rfl, hread, ?_⟩
  intro hk
  have h3 : (B.take 3).length = 3 := by rw [hb]; rfl
  have hl := congrArg List.length hk
  simp at h3 hl
  omega

/-- C8 where it fails, on a read-only file holding the mark alone. -/
theorem C8_success_reported_before_write_witness :
    stdoutLines (emitted (worldWith "/w/main.py" (readOnlyFile bom))
        (removeBomFromFile resolveIn "main.py" (worldWith "/w/main.py" (readOnlyFile bom))).2)
      = ["BOM found and removed from main.py"]
    ∧ ((removeBomFromFile resolveIn "main.py"
          (worldWith "/w/main.py" (readOnlyFile bom))).2.fs "/w/main.py").content
      = Except.ok bom := by
  have h := C8_success_reported_before_write resolveIn "main.py" "/w/main.py"
    (worldWith "/w/main.py" (readOnlyFile bom)) bom "Error: EACCES: permission denied"
    rfl (by decide) (by simp [worldWith, World.fs, readOnlyFile])
    (by simp [worldWith, World.fs, readOnlyFile])
  exact ⟨h.2.1, h.2.2.1⟩

/-- C9, as stated, fails when the write throws part-way: with
`EF BB BF 68 65 6C 6C 6F` in a file whose device takes two more bytes and then
is full, the call leaves `68 65` in the file, which is not the buffer with
some number of leading bytes dropped. -/
theorem C9_counterexample :
    ((removeBomFromFile resolveIn "main.py"
        (worldWith "/w/main.py" (fullDiskFile (bom ++ hello) 2))).2.fs "/w/main.py").content
      = Except.ok [0x68, 0x65]
    ∧ ∀ k : Nat, (bom ++ hello).drop k ≠ [0x68, 0x65] := by
  have h := run_bom_onWrite resolveIn "main.py" "/w/main.py"
    (worldWith "/w/main.py" (fullDiskFile (bom ++ hello) 2)) (bom ++ hello)
    "Error: ENOSPC: no space left on device" 2 rfl
    (by simp [worldWith, World.fs, fullDiskFile]) (by decide)
    (by simp [worldWith, World.fs, fullDiskFile])
  rw [h]
  constructor
  · simp [fs_store_same, bom, hello]
  · intro k hk
    have hl := congrArg List.length hk
    simp [bom, hello] at hl
    have h6 : k = 6 := by omega
    subst h6
    simp [bom, hello] at hk

/-- C9, amended: only the first three bytes are looked at.  First, for two
buffers that agree on their first three bytes (both of at least three bytes,
or both of the same length below three), the calls write the same lines to
standard output and attempt a write to the same targets (both once or neither),
and, the two files having the same write behaviour, the same lines to standard
error.  Second, for every buffer `B` held by the file at `p`, whatever is
handed to the write is `B` without its first three bytes, for the file that
was read, and only when `B` starts with the mark; and, unless the write throws
after truncating the file, the file ends up holding `B` itself or `B` without
its first three bytes. -/
theorem C9_only_leading_bytes (resolve : String → Except String String) (p fp : String)
    (hres : resolve p = Except.ok fp) :
    (∀ (w1 w2 : World) (B1 B2 : Buffer),
        B1.take 3 = B2.take 3 →
        ((3 ≤ B1.length ∧ 3 ≤ B2.length) ∨ (B1.length = B2.length ∧ B1.length < 3)) →
        (w1.fs fp).content = Except.ok B1 →
        (w2.fs fp).content = Except.ok B2 →
          stdoutLines (emitted w1 (removeBomFromFile resolve p w1).2)
            = stdoutLines (emitted w2 (removeBomFromFile resolve p w2).2)
          ∧ (writes (emitted w1 (removeBomFromFile resolve p w1).2)).map Prod.fst
            = (writes (emitted w2 (removeBomFromFile resolve p w2).2)).map Prod.fst
          ∧ ((w1.fs fp).fault = (w2.fs fp).fault →
              stderrLines (emitted w1 (removeBomFromFile resolve p w1).2)
                = stderrLines (emitted w2 (removeBomFromFile resolve p w2).2)))
    ∧ (∀ (w : World) (B : Buffer),
        (w.fs fp).content = Except.ok B →
          (∀ x ∈ writes (emitted w (removeBomFromFile resolve p w).2),
              x = (fp, B.drop 3) ∧ B.take 3 = bom)
          ∧ ((∀ (e : String) (n : Nat), (w.fs fp).fault ≠ WriteFault.onWrite e n) →
              ((removeBomFromFile resolve p w).2.fs fp).content = Except.ok (B.drop 0)
              ∨ ((removeBomFromFile resolve p w).2.fs fp).content
                  = Except.ok (B.drop 3))) := by
  have out : ∀ (w : World) (B : Buffer), (w.fs fp).content = Except.ok B →
      B.take 3 = bom →
      stdoutLines (emitted w (removeBomFromFile resolve p w).2)
          = ["BOM found and removed from " ++ p]
      ∧ (writes (emitted w (removeBomFromFile resolve p w).2)).map Prod.fst = [fp]
      ∧ ∀ x ∈ writes (emitted w (removeBomFromFile resolve p w).2),
          x = (fp, B.drop 3) := by
    intro w B h hb
    cases hk : (w.fs fp).fault with
    | none =>
      rw [run_bom_written resolve p fp w B hres h hb hk, emitted_eq]
      simp [stdoutLines, writes]
    | onOpen e =>
      rw [run_bom_onOpen resolve p fp w B e hres h hb hk, emitted_eq]
      simp [stdoutLines, writes]
    | onWrite e n =>
      rw [run_bom_onWrite resolve p fp w B e n hres h hb hk, emitted_eq]
      simp [stdoutLines, writes]
  constructor
  · intro w1 w2 B1 B2 hagree _ h1 h2
    by_cases hb : B1.take 3 = bom
    · have hb2 : B2.take 3 = bom := by rw [← hagree]; exact hb
      have o1 := out w1 B1 h1 hb
      have o2 := out w2 B2 h2 hb2
      refine ⟨by rw [o1.1, o2.1], by rw [o1.2.1, o2.2.1], ?_⟩
      intro hf
      cases hk : (w2.fs fp).fault with
      | none =>
        rw [run_bom_written resolve p fp w1 B1 hres h1 hb (by rw [hf, hk]),
          run_bom_written resolve p fp w2 B2 hres h2 hb2 hk, emitted_eq, emitted_eq]
        rfl
      | onOpen e =>
        rw [run_bom_onOpen resolve p fp w1 B1 e hres h1 hb (by rw [hf, hk]),
          run_bom_onOpen resolve p fp w2 B2 e hres h2 hb2 hk, emitted_eq, emitted_eq]
        rfl
      | onWrite e n =>
        rw [run_bom_onWrite resolve p fp w1 B1 e n hres h1 hb (by rw [hf, hk]),
          run_bom_onWrite resolve p fp w2 B2 e n hres h2 hb2 hk, emitted_eq, emitted_eq]
        rfl
    · have hb2 : B2.take 3 ≠ bom := by rw [← hagree]; exact hb
      rw [run_noBom resolve p fp w1 B1 hres h1 hb, run_noBom resolve p fp w2 B2 hres h2 hb2,
        emitted_eq, emitted_eq]
      exact ⟨rfl, rfl, fun _ => rfl⟩
  · intro w B h
    by_cases hb : B.take 3 = bom
    · refine ⟨fun x hx => ⟨(out w B h hb).2.2 x hx, hb⟩, ?_⟩
      intro hno
      cases hk : (w.fs fp).fault with
      | none =>
        rw [run_bom_written resolve p fp w B hres h hb hk]
        right
        simp [fs_store_same]
      | onOpen e =>
        rw [run_bom_onOpen resolve p fp w B e hres h hb hk]
        left
        simpa using h
      | onWrite e n => exact absurd hk (hno e n)
    · rw [run_noBom resolve p fp w B hres h hb, emitted_eq]
      refine ⟨?_, fun _ => Or.inl ?_⟩
      · intro x hx
        simp [writes] at hx
      · simpa using h

/-- C9, amended, on two buffers that share `EF BB BF` and differ afterwards,
the second holding the mark once more at offset 3: both calls report the
removal, and the second file keeps the later mark. -/
theorem C9_only_leading_bytes_witness :
    stdoutLines (emitted (worldWith "/w/main.py" (plainFile (bom ++ hello)))
        (removeBomFromFile resolveIn "main.py"
          (worldWith "/w/main.py" (plainFile (bom ++ hello)))).2)
      = stdoutLines (emitted (worldWith "/w/main.py" (plainFile (bom ++ bom)))
        (removeBomFromFile resolveIn "main.py"
          (worldWith "/w/main.py" (plainFile (bom ++ bom)))).2)
    ∧ (((removeBomFromFile resolveIn "main.py"
          (worldWith "/w/main.py" (plainFile (bom ++ bom)))).2.fs
            "/w/main.py").content = Except.ok ((bom ++ bom).drop 0)
      ∨ ((removeBomFromFile resolveIn "main.py"
          (worldWith "/w/main.py" (plainFile (bom ++ bom)))).2.fs
            "/w/main.py").content = Except.ok ((bom ++ bom).drop 3)) := by
  have h := C9_only_leading_bytes resolveIn "main.py" "/w/main.py" rfl
  refine ⟨(h.1 (worldWith "/w/main.py" (plainFile (bom ++ hello)))
      (worldWith "/w/main.py" (plainFile (bom ++ bom))) (bom ++ hello) (bom ++ bom)
      (by decide) (Or.inl (by decide)) (by simp [worldWith, World.fs, plainFile])
      (by simp [worldWith, World.fs, plainFile])).1, ?_⟩
  exact (h.2 (worldWith "/w/main.py" (plainFile (bom ++ bom))) (bom ++ bom)
    (by simp [worldWith, World.fs, plainFile])).2
    (by intro e n; simp [worldWith, World.fs, plainFile])

/-- When `path.resolve` returns, what a call does is decided by the file the
resolved path leads to: it returns normally, replaces at most that file,
reads it once and writes at most once, to that same path. -/
theorem run_shape (resolve : String → Except String String) (p fp : String)
    (hres : resolve p = Except.ok fp) (f0 : File) :
    ∃ (f : File) (evs : List Event),
      reads evs = [fp] ∧ (∀ x ∈ writes evs, x.1 = fp) ∧ (writes evs).length ≤ 1
      ∧ ∀ w : World, w.fs fp = f0 →
          removeBomFromFile resolve p w =
            (Except.ok (),
              { node := w.node,
                files := fun i => if i = w.node fp then f else w.files i,
                trace := w.trace ++ evs }) := by
  have keep : ∀ w : World, w.fs fp = f0 →
      w.files = fun i => if i = w.node fp then f0 else w.files i := by
    intro w hw
    funext i
    by_cases hi : i = w.node fp
    · rw [if_pos hi, hi]; exact hw
    · rw [if_neg hi]
  have put : ∀ (w : World) (d : Buffer), w.fs fp = f0 →
      store w.files (w.node fp) d =
        fun i => if i = w.node fp then { content := Except.ok d, fault := f0.fault }
          else w.files i := by
    intro w d hw
    funext i
    have hw2 : w.files (w.node fp) = f0 := hw
    by_cases hi : i = w.node fp
    · simp [store, hi, hw2]
    · simp [store, hi]
  cases hc : f0.content with
  | error e =>
    refine ⟨f0, [Event.read fp,
      Event.stderr ("Error processing file " ++ p ++ ": " ++ e)], rfl, ?_, ?_, ?_⟩
    · simp [writes]
    · simp [writes]
    · intro w hw
      rw [run_readError resolve p fp w e hres (by rw [hw, hc]), ← keep w hw]
  | ok B =>
    by_cases hb : B.take 3 = bom
    · cases hf : f0.fault with
      | none =>
        refine ⟨{ content := Except.ok (B.drop 3), fault := f0.fault }, [Event.read fp,
          Event.stdout ("BOM found and removed from " ++ p),
          Event.write fp (B.drop 3)], rfl, ?_, ?_, ?_⟩
        · simp [writes]
        · simp [writes]
        · intro w hw
          rw [run_bom_written resolve p fp w B hres (by rw [hw, hc]) hb (by rw [hw, hf]),
            put w _ hw]
      | onOpen e =>
        refine ⟨f0, [Event.read fp,
          Event.stdout ("BOM found and removed from " ++ p),
          Event.write fp (B.drop 3),
          Event.stderr ("Error processing file " ++ p ++ ": " ++ e)], rfl, ?_, ?_, ?_⟩
        · simp [writes]
        · simp [writes]
        · intro w hw
          rw [run_bom_onOpen resolve p fp w B e hres (by rw [hw, hc]) hb (by rw [hw, hf]),
            ← keep w hw]
      | onWrite e n =>
        refine ⟨{ content := Except.ok ((B.drop 3).take n), fault := f0.fault },
          [Event.read fp,
          Event.stdout ("BOM found and removed from " ++ p),
          Event.write fp (B.drop 3),
          Event.stderr ("Error processing file " ++ p ++ ": " ++ e)], rfl, ?_, ?_, ?_⟩
        · simp [writes]
        · simp [writes]
        · intro w hw
          rw [run_bom_onWrite resolve p fp w B e n hres (by rw [hw, hc]) hb (by rw [hw, hf]),
            put w _ hw]
    · refine ⟨f0, [Event.read fp, Event.stdout ("No BOM found in " ++ p)],
        rfl, ?_, ?_, ?_⟩
      · simp [writes]
      · simp [writes]
      · intro w hw
        rw [run_noBom resolve p fp w B hres (by rw [hw, hc]) hb, ← keep w hw]

/-- The script runs its second call in the world the first call left, when
the first call returns. -/
theorem script_of_ok (resolve : String → Except String String) (w : World)
    (h : (removeBomFromFile resolve "main.py" w).1 = Except.ok ()) :
    script resolve w =
      removeBomFromFile resolve "pdf_processor/processor.py"
        (removeBomFromFile resolve "main.py" w).2 := by
  rcases hh : removeBomFromFile resolve "main.py" w with ⟨r, w1⟩
  rw [hh] at h
  cases r with
  | error e => simp at h
  | ok u => simp [script, bind, hh]

/-- The script stops at its first call when that call throws. -/
theorem script_of_error (resolve : String → Except String String) (w w1 : World) (e : String)
    (h : removeBomFromFile resolve "main.py" w = (Except.error e, w1)) :
    script resolve w = (Except.error e, w1) := by
  simp [script, bind, h]

/-- The reads of two runs of effects, one after the other. -/
theorem reads_append (a b : List Event) : reads (a ++ b) = reads a ++ reads b := by
  induction a with
  | nil => rfl
  | cons x xs ih => cases x <;> simp [reads, ih]

/-- C6, as stated, fails in two kinds of file-system state.  First, when the
working directory of the process has been removed, `path.resolve` throws
before the `try` is entered: the call on `main.py` throws, so does the script,
and nothing at all is read, written or reported, the second path included.
Second, when `pdf_processor/processor.py` is another name of the file
`main.py`, holding `EF BB BF EF BB BF`, the script leaves the file empty while
the call on `main.py` alone leaves `EF BB BF` in it. -/
theorem C6_counterexample :
    (removeBomFromFile resolveGone "main.py"
        (worldWith2 "/w/main.py" (plainFile (bom ++ hello))
          "/w/pdf_processor/processor.py" (plainFile (bom ++ hello)))).1
      = Except.error "Error: ENOENT: no such file or directory, uv_cwd"
    ∧ (script resolveGone
        (worldWith2 "/w/main.py" (plainFile (bom ++ hello))
          "/w/pdf_processor/processor.py" (plainFile (bom ++ hello)))).1
      = Except.error "Error: ENOENT: no such file or directory, uv_cwd"
    ∧ emitted (worldWith2 "/w/main.py" (plainFile (bom ++ hello))
          "/w/pdf_processor/processor.py" (plainFile (bom ++ hello)))
        (script resolveGone
          (worldWith2 "/w/main.py" (plainFile (bom ++ hello))
            "/w/pdf_processor/processor.py" (plainFile (bom ++ hello)))).2 = []
    ∧ ((script resolveIn
          (linkedWorld "/w/main.py" "/w/pdf_processor/processor.py"
            (plainFile (bom ++ bom)))).2.fs "/w/main.py").content = Except.ok []
    ∧ ((removeBomFromFile resolveIn "main.py"
          (linkedWorld "/w/main.py" "/w/pdf_processor/processor.py"
            (plainFile (bom ++ bom)))).2.fs "/w/main.py").content = Except.ok bom := by
  have hg := run_resolveError resolveGone "main.py"
    (worldWith2 "/w/main.py" (plainFile (bom ++ hello))
      "/w/pdf_processor/processor.py" (plainFile (bom ++ hello)))
    "Error: ENOENT: no such file or directory, uv_cwd" rfl
  have hsg := script_of_error resolveGone _ _ _ hg
  have h1 := run_bom_written resolveIn "main.py" "/w/main.py"
    (linkedWorld "/w/main.py" "/w/pdf_processor/processor.py" (plainFile (bom ++ bom)))
    (bom ++ bom) rfl
    (by simp [linkedWorld, World.fs, plainFile]) (by decide)
    (by simp [linkedWorld, World.fs, plainFile])
  have hs := script_of_ok resolveIn
    (linkedWorld "/w/main.py" "/w/pdf_processor/processor.py" (plainFile (bom ++ bom)))
    (by rw [h1])
  have h2 := run_bom_written resolveIn "pdf_processor/processor.py"
    "/w/pdf_processor/processor.py"
    { node := (linkedWorld "/w/main.py" "/w/pdf_processor/processor.py"
        (plainFile (bom ++ bom))).node,
      files := store (linkedWorld "/w/main.py" "/w/pdf_processor/processor.py"
          (plainFile (bom ++ bom))).files
        ((linkedWorld "/w/main.py" "/w/pdf_processor/processor.py"
          (plainFile (bom ++ bom))).node "/w/main.py")
        ((bom ++ bom).drop 3),
      trace := (linkedWorld "/w/main.py" "/w/pdf_processor/processor.py"
          (plainFile (bom ++ bom))).trace ++
        [Event.read "/w/main.py",
         Event.stdout ("BOM found and removed from " ++ "main.py"),
         Event.write "/w/main.py" ((bom ++ bom).drop 3)] }
    bom rfl (by simp [World.fs, store, linkedWorld, bom]) (by decide)
    (by simp [World.fs, store, linkedWorld, plainFile])
  refine ⟨by rw [hg], by rw [hsg], by rw [hsg]; simp [emitted], ?_, ?_⟩
  · rw [hs, h1, h2]
    simp [World.fs, store, linkedWorld, bom]
  · rw [h1]
    simp [World.fs, store, linkedWorld, bom]

/-- C6, amended: in every world, a call for which `path.resolve` returns
comes back normally, whatever the file is like.  When `path.resolve` returns
for the two hard-coded paths, the script returns normally and always runs its
second call, on the world the first call left, reading both files in order;
and when the two resolved paths lead to different files, what the script
emits is what the first call alone emits followed by what the second call
alone emits from the initial world, and the file at each of the two paths
ends up as that call alone leaves it. -/
theorem C6_error_isolation (resolve : String → Except String String) (w : World) :
    (∀ p fp : String, resolve p = Except.ok fp →
        (removeBomFromFile resolve p w).1 = Except.ok ())
    ∧ (∀ m q : String, resolve "main.py" = Except.ok m →
        resolve "pdf_processor/processor.py" = Except.ok q →
          (script resolve w).1 = Except.ok ()
          ∧ (script resolve w).2 =
              (removeBomFromFile resolve "pdf_processor/processor.py"
                (removeBomFromFile resolve "main.py" w).2).2
          ∧ reads (emitted w (script resolve w).2) = [m, q]
          ∧ (w.node m ≠ w.node q →
              emitted w (script resolve w).2 =
                emitted w (removeBomFromFile resolve "main.py" w).2 ++
                  emitted w (removeBomFromFile resolve "pdf_processor/processor.py" w).2
              ∧ (script resolve w).2.fs m = (removeBomFromFile resolve "main.py" w).2.fs m
              ∧ (script resolve w).2.fs q =
                  (removeBomFromFile resolve "pdf_processor/processor.py" w).2.fs q)) := by
  refine ⟨?_, ?_⟩
  · intro p fp hp
    obtain ⟨f, evs, -, -, -, h⟩ := run_shape resolve p fp hp (w.fs fp)
    rw [h w rfl]
  · intro m q hm hq
    obtain ⟨f1, ev1, hr1, -, -, h1⟩ := run_shape resolve "main.py" m hm (w.fs m)
    have e1 := h1 w rfl
    have hs := script_of_ok resolve w (by rw [e1])
    obtain ⟨f2, ev2, hr2, -, -, h2⟩ :=
      run_shape resolve "pdf_processor/processor.py" q hq
        (World.fs { node := w.node, files := fun i => if i = w.node m then f1 else w.files i,
                    trace := w.trace ++ ev1 } q)
    have e12 := h2 { node := w.node, files := fun i => if i = w.node m then f1 else w.files i,
                     trace := w.trace ++ ev1 } rfl
    refine ⟨by rw [hs, e1, e12], by rw [hs], ?_, ?_⟩
    · rw [hs, e1, e12]
      simp [emitted, reads_append, hr1, hr2]
    · intro hne
      obtain ⟨f3, ev3, -, -, -, h3⟩ :=
        run_shape resolve "pdf_processor/processor.py" q hq (w.fs q)
      have e2 := h3 w rfl
      have e12b := h3 { node := w.node,
                        files := fun i => if i = w.node m then f1 else w.files i,
                        trace := w.trace ++ ev1 } (by simp [World.fs, Ne.symm hne])
      rw [hs, e1, e2, e12b]
      refine ⟨by simp [emitted], ?_, ?_⟩
      · simp [World.fs, hne]
      · simp [World.fs]

/-- C6, amended, on a world without links where `main.py` is missing and the
second file starts with the mark: the script returns normally and emits the
failure report of the first call followed by what the second call alone
emits. -/
theorem C6_error_isolation_witness :
    (script resolveIn (worldWith "/w/pdf_processor/processor.py" (plainFile (bom ++ hello)))).1
      = Except.ok ()
    ∧ emitted (worldWith "/w/pdf_processor/processor.py" (plainFile (bom ++ hello)))
        (script resolveIn
          (worldWith "/w/pdf_processor/processor.py" (plainFile (bom ++ hello)))).2 =
      emitted (worldWith "/w/pdf_processor/processor.py" (plainFile (bom ++ hello)))
        (removeBomFromFile resolveIn "main.py"
          (worldWith "/w/pdf_processor/processor.py" (plainFile (bom ++ hello)))).2 ++
      emitted (worldWith "/w/pdf_processor/processor.py" (plainFile (bom ++ hello)))
        (removeBomFromFile resolveIn "pdf_processor/processor.py"
          (worldWith "/w/pdf_processor/processor.py" (plainFile (bom ++ hello)))).2 := by
  have h := (C6_error_isolation resolveIn
    (worldWith "/w/pdf_processor/processor.py" (plainFile (bom ++ hello)))).2
    "/w/main.py" "/w/pdf_processor/processor.py" rfl rfl
  exact ⟨h.1, (h.2.2.2 (by simp [worldWith])).1⟩

/-- C10, as stated, fails when another path leads to the same file: with
`pdf_processor/processor.py` a link to `main.py`, which holds
`EF BB BF 68 65 6C 6C 6F`, the call on `main.py` changes what is read at the
other path from `EF BB BF 68 65 6C 6C 6F` to `68 65 6C 6C 6F`. -/
theorem C10_counterexample :
    "/w/pdf_processor/processor.py" ≠ "/w/main.py"
    ∧ ((linkedWorld "/w/main.py" "/w/pdf_processor/processor.py"
          (plainFile (bom ++ hello))).fs "/w/pdf_processor/processor.py").content
      = Except.ok (bom ++ hello)
    ∧ ((removeBomFromFile resolveIn "main.py"
          (linkedWorld "/w/main.py" "/w/pdf_processor/processor.py"
            (plainFile (bom ++ hello)))).2.fs "/w/pdf_processor/processor.py").content
      = Except.ok hello := by
  have h1 := run_bom_written resolveIn "main.py" "/w/main.py"
    (linkedWorld "/w/main.py" "/w/pdf_processor/processor.py" (plainFile (bom ++ hello)))
    (bom ++ hello) rfl
    (by simp [linkedWorld, World.fs, plainFile]) (by decide)
    (by simp [linkedWorld, World.fs, plainFile])
  refine ⟨by decide, ?_, ?_⟩
  · simp [linkedWorld, World.fs, plainFile]
  · rw [h1]
    simp [World.fs, store, linkedWorld, bom]

/-- C10, amended: in every world, a call for which `path.resolve` returns
reads exactly the resolved path, writes at most once and only to that same
path, leaves the links as they are, and leaves every file other than the one
that path leads to as it was, so that what is read at any path that does not
lead to that file is unchanged; and a call for which `path.resolve` throws
leaves the whole world as it was. -/
theorem C10_frame (resolve : String → Except String String) (p : String) (w : World) :
    (∀ fp : String, resolve p = Except.ok fp →
        reads (emitted w (removeBomFromFile resolve p w).2) = [fp]
        ∧ (∀ x ∈ writes (emitted w (removeBomFromFile resolve p w).2), x.1 = fp)
        ∧ (writes (emitted w (removeBomFromFile resolve p w).2)).length ≤ 1
        ∧ (removeBomFromFile resolve p w).2.node = w.node
        ∧ (∀ i : FileId, i ≠ w.node fp → (removeBomFromFile resolve p w).2.files i = w.files i)
        ∧ ∀ q : String, w.node q ≠ w.node fp →
            (removeBomFromFile resolve p w).2.fs q = w.fs q)
    ∧ (∀ e : String, resolve p = Except.error e → (removeBomFromFile resolve p w).2 = w) := by
  constructor
  · intro fp hres
    obtain ⟨f, evs, hr, hw1, hw2, h⟩ := run_shape resolve p fp hres (w.fs fp)
    rw [h w rfl, emitted_eq]
    refine ⟨hr, hw1, hw2, rfl, ?_, ?_⟩
    · intro i hi
      simp [hi]
    · intro q hq
      simp [World.fs, hq]
  · intro e hres
    rw [run_resolveError resolve p w e hres]

/-- C10, amended, on a world without links and with two files: stripping
`main.py` leaves the other file as it was. -/
theorem C10_frame_witness :
    ((removeBomFromFile resolveIn "main.py"
        (worldWith2 "/w/main.py" (plainFile (bom ++ hello))
          "/w/pdf_processor/processor.py" (plainFile (bom ++ hello)))).2.fs
        "/w/pdf_processor/processor.py").content = Except.ok (bom ++ hello) := by
  have h := ((C10_frame resolveIn "main.py"
    (worldWith2 "/w/main.py" (plainFile (bom ++ hello))
      "/w/pdf_processor/processor.py" (plainFile (bom ++ hello)))).1
    "/w/main.py" rfl).2.2.2.2.2 "/w/pdf_processor/processor.py" (by simp [worldWith2])
  rw [h]
  simp [worldWith2, World.fs, plainFile]

end RemoveBom
